import Mathlib

/-!
Shallow embedding of the indicator engine and backtesting simulator of the
Trading-Strategy-Agent repository (src/modules/indicators.py and
src/modules/backtester.py).  Prices and cash are modelled as rationals;
pandas NaN (undefined indicator values) is modelled as `Option.none`, and
the IEEE comparison semantics (any comparison involving NaN is false) is
made explicit in `optLt` / `optGt`.
-/

namespace Backtester

/-- One row of the indicator-and-signal-augmented DataFrame consumed by
`Backtester.run_backtest`: the close price plus the five indicator columns
the strategies read.  An indicator value of `none` models a pandas NaN
(insufficient lookback). -/
structure Row where
  close : ℚ
  RSI : Option ℚ
  MACD : Option ℚ
  MACD_Signal : Option ℚ
  SMA_Short : Option ℚ
  SMA_Long : Option ℚ
  deriving DecidableEq, Repr

/-- Pandas comparison `a < b` on possibly-NaN values: false whenever either
side is NaN (`none`). -/
def optLt : Option ℚ → Option ℚ → Bool
  | some a, some b => decide (a < b)
  | _, _ => false

/-- Pandas comparison `a > b` on possibly-NaN values: false whenever either
side is NaN (`none`). -/
def optGt : Option ℚ → Option ℚ → Bool
  | some a, some b => decide (b < a)
  | _, _ => false

/-- Buy mask of the rsi_macd strategy: `(df.RSI < 30) & (df.MACD > df.MACD_Signal)`. -/
def buyRsiMacd (r : Row) : Bool :=
  optLt r.RSI (some 30) && optGt r.MACD r.MACD_Signal

/-- Sell mask of the rsi_macd strategy: `(df.RSI > 70) & (df.MACD < df.MACD_Signal)`. -/
def sellRsiMacd (r : Row) : Bool :=
  optGt r.RSI (some 70) && optLt r.MACD r.MACD_Signal

/-- Buy mask of the ma_crossover strategy: `df.SMA_Short > df.SMA_Long`. -/
def buyMaCrossover (r : Row) : Bool :=
  optGt r.SMA_Short r.SMA_Long

/-- Sell mask of the ma_crossover strategy: `df.SMA_Short < df.SMA_Long`. -/
def sellMaCrossover (r : Row) : Bool :=
  optLt r.SMA_Short r.SMA_Long

/-- Buy mask of the combined strategy. -/
def buyCombined (r : Row) : Bool :=
  optLt r.RSI (some 40) && optGt r.MACD r.MACD_Signal && optGt r.SMA_Short r.SMA_Long

/-- Sell mask of the combined strategy. -/
def sellCombined (r : Row) : Bool :=
  optGt r.RSI (some 60) && optLt r.MACD r.MACD_Signal && optLt r.SMA_Short r.SMA_Long

/-- Buy condition of `generate_signals`, dispatched on the strategy name
exactly as the if/elif chain of the source does; an unrecognised name
matches no branch, so its mask is everywhere false. -/
def buyCond (strategy_type : String) (r : Row) : Bool :=
  if strategy_type = "rsi_macd" then buyRsiMacd r
  else if strategy_type = "ma_crossover" then buyMaCrossover r
  else if strategy_type = "combined" then buyCombined r
  else false

/-- Sell condition of `generate_signals`, dispatched like `buyCond`. -/
def sellCond (strategy_type : String) (r : Row) : Bool :=
  if strategy_type = "rsi_macd" then sellRsiMacd r
  else if strategy_type = "ma_crossover" then sellMaCrossover r
  else if strategy_type = "combined" then sellCombined r
  else false

/-- The signal of one row, as computed by `Backtester.generate_signals`:
the column starts at 0, the buy mask writes 1, then the sell mask writes
-1, so a row matched by the sell mask ends at -1, otherwise a row matched
by the buy mask ends at 1, otherwise 0. -/
def generate_signal (strategy_type : String) (r : Row) : Int :=
  if sellCond strategy_type r then -1
  else if buyCond strategy_type r then 1
  else 0

/-- The three strategy names recognised by `generate_signals`. -/
def strategyNames : List String := ["rsi_macd", "ma_crossover", "combined"]

/-- Whether some indicator read by the given strategy is undefined (NaN)
in the row. -/
def missingRequired (strategy_type : String) (r : Row) : Bool :=
  if strategy_type = "rsi_macd" then
    r.RSI.isNone || r.MACD.isNone || r.MACD_Signal.isNone
  else if strategy_type = "ma_crossover" then
    r.SMA_Short.isNone || r.SMA_Long.isNone
  else if strategy_type = "combined" then
    r.RSI.isNone || r.MACD.isNone || r.MACD_Signal.isNone ||
      r.SMA_Short.isNone || r.SMA_Long.isNone
  else false

/-- Trade side. -/
inductive Side where
  | BUY
  | SELL
  deriving DecidableEq, Repr

/-- One entry of `self.trades`.  The bar index stands for the DataFrame
timestamp `df.index[i]`; `profit` and `profit_pct` are present (.some)
exactly on the SELL records, mirroring the dict keys of the source. -/
structure Trade where
  idx : ℕ
  side : Side
  price : ℚ
  shares : ℤ
  commission : ℚ
  profit : Option ℚ
  profit_pct : Option ℚ
  deriving DecidableEq, Repr

/-- One entry of `self.portfolio_value`: bar index and portfolio value. -/
structure EquityPoint where
  idx : ℕ
  value : ℚ
  deriving DecidableEq, Repr

/-- The mutable locals of `run_backtest`: `capital`, `position`,
`entry_price`, plus the two recorded histories. -/
structure SimState where
  capital : ℚ
  position : ℤ
  entry_price : ℚ
  trades : List Trade
  portfolio_value : List EquityPoint
  deriving DecidableEq, Repr

/-- Python `int(q)` for a rational: truncation toward zero, which is
exactly `num / den` under Lean integer division. -/
def pyInt (q : ℚ) : ℤ := q.num / (q.den : ℤ)

/-- State right after `capital = self.initial_capital` etc. at the top of
`run_backtest`. -/
def initState (initial_capital : ℚ) : SimState :=
  { capital := initial_capital
    position := 0
    entry_price := 0
    trades := []
    portfolio_value := [] }

/-- The trade-execution part of one loop iteration of `run_backtest`
(the `if signal == 1 and position == 0` / `elif signal == -1 and
position > 0` block), applied after the equity point of the bar has been
appended. -/
def tradeStep (commission : ℚ) (strategy_type : String) (i : ℕ) (r : Row)
    (s : SimState) : SimState :=
  if generate_signal strategy_type r = 1 ∧ s.position = 0 then
    if 0 < pyInt (s.capital / r.close) then
      if (pyInt (s.capital / r.close) : ℚ) * r.close * (1 + commission) ≤ s.capital then
        { s with
          capital := s.capital - (pyInt (s.capital / r.close) : ℚ) * r.close * (1 + commission)
          position := pyInt (s.capital / r.close)
          entry_price := r.close
          trades := s.trades ++
            [{ idx := i
               side := Side.BUY
               price := r.close
               shares := pyInt (s.capital / r.close)
               commission := (pyInt (s.capital / r.close) : ℚ) * r.close * commission
               profit := none
               profit_pct := none }] }
      else s
    else s
  else if generate_signal strategy_type r = -1 ∧ 0 < s.position then
    { s with
      capital := s.capital + (s.position : ℚ) * r.close * (1 - commission)
      position := 0
      entry_price := 0
      trades := s.trades ++
        [{ idx := i
           side := Side.SELL
           price := r.close
           shares := s.position
           commission := (s.position : ℚ) * r.close * commission
           profit := some ((r.close - s.entry_price) * (s.position : ℚ))
           profit_pct := some ((r.close - s.entry_price) / s.entry_price * 100) }] }
  else s

/-- One full loop iteration of `run_backtest` on bar `i`: first the equity
point is appended (valued from the pre-trade capital and position), then
trades execute. -/
def stepBar (commission : ℚ) (strategy_type : String) (i : ℕ) (r : Row)
    (s : SimState) : SimState :=
  tradeStep commission strategy_type i r
    { s with
      portfolio_value :=
        s.portfolio_value ++ [{ idx := i, value := s.capital + (s.position : ℚ) * r.close }] }

/-- The `for i in range(len(df))` loop of `run_backtest`, carried out over
the remaining rows, with `i` the index of the first of them. -/
def runBars (commission : ℚ) (strategy_type : String) :
    List Row → ℕ → SimState → SimState
  | [], _, s => s
  | r :: rest, i, s =>
      runBars commission strategy_type rest (i + 1) (stepBar commission strategy_type i r s)

/-- The `if position > 0` close-out after the loop: sell the whole
position at the last close.  (The source never reaches `df.iloc[-1]` with
an empty frame because `position > 0` requires at least one processed
bar; the `none` branch is that unreachable case.) -/
def closeOut (commission : ℚ) (rows : List Row) (s : SimState) : SimState :=
  if 0 < s.position then
    match rows.getLast? with
    | some lastRow =>
        { s with
          capital := s.capital + (s.position : ℚ) * lastRow.close * (1 - commission)
          trades := s.trades ++
            [{ idx := rows.length - 1
               side := Side.SELL
               price := lastRow.close
               shares := s.position
               commission := (s.position : ℚ) * lastRow.close * commission
               profit := some ((lastRow.close - s.entry_price) * (s.position : ℚ))
               profit_pct := some ((lastRow.close - s.entry_price) / s.entry_price * 100) }] }
    | none => s
  else s

/-- The whole simulation part of `run_backtest` (lines 85-163): signal
generation is already folded into `stepBar`; the result is the final
state of the locals together with the recorded trade and equity lists. -/
def run_backtest (strategy_type : String) (commission : ℚ)
    (initial_capital : ℚ) (rows : List Row) : SimState :=
  closeOut commission rows
    (runBars commission strategy_type rows 0 (initState initial_capital))

/-- `len([t for t in self.trades if 'profit' in t])`: the number of
recorded trades carrying a profit field. -/
def profitFieldCount (ts : List Trade) : ℕ :=
  (ts.filter fun t => t.profit.isSome).length

/-- `len([t for t in self.trades if t.get('profit', 0) > 0])`. -/
def profitableCount (ts : List Trade) : ℕ :=
  (ts.filter fun t => decide (0 < t.profit.getD 0)).length

/-- The part of the report of `calculate_metrics` that the claims touch. -/
structure Metrics where
  initial_capital : ℚ
  final_value : ℚ
  total_return : ℚ
  total_return_pct : ℚ
  total_trades : ℕ
  buy_trades : ℕ
  sell_trades : ℕ
  win_rate : ℚ
  deriving DecidableEq, Repr

/-- `calculate_metrics` on the recorded histories.  `final_value` falls
back to the initial capital when the equity list is empty; `win_rate` is
0 when no trades were recorded, else the share of profitable closing
trades among the trades carrying a profit field.  (Rational division by
zero yields 0 where Python would raise; the run never produces a
non-empty trade list whose profit-field count is zero.) -/
def calculate_metrics (initial_capital : ℚ) (ts : List Trade)
    (pv : List EquityPoint) : Metrics :=
  let final_value := match pv.getLast? with
    | some p => p.value
    | none => initial_capital
  let total_return := final_value - initial_capital
  { initial_capital := initial_capital
    final_value := final_value
    total_return := total_return
    total_return_pct := total_return / initial_capital * 100
    total_trades := ts.length
    buy_trades := (ts.filter fun t => t.side = Side.BUY).length
    sell_trades := (ts.filter fun t => t.side = Side.SELL).length
    win_rate :=
      if ts = [] then 0
      else (profitableCount ts : ℚ) / (profitFieldCount ts : ℚ) * 100 }

/-- `run_backtest` as the caller sees it: the metrics report computed
from the run. -/
def backtestReport (strategy_type : String) (commission : ℚ)
    (initial_capital : ℚ) (rows : List Row) : Metrics :=
  let s := run_backtest strategy_type commission initial_capital rows
  calculate_metrics initial_capital s.trades s.portfolio_value

/-- The simulator state after the first `n` loop iterations of a run
(`initState` followed by the loop over the first `n` bars). -/
def stateAt (commission : ℚ) (strategy_type : String) (initial_capital : ℚ)
    (rows : List Row) (n : ℕ) : SimState :=
  runBars commission strategy_type (rows.take n) 0 (initState initial_capital)

/-- Sample bar for the ma_crossover strategy: short SMA above long SMA,
so its signal is BUY. -/
def rowM : Row :=
  { close := 10, RSI := none, MACD := none, MACD_Signal := none,
    SMA_Short := some 2, SMA_Long := some 1 }

/-- Sample bar for the rsi_macd strategy: RSI below 30 and MACD above its
signal line, so its signal is BUY. -/
def rowR : Row :=
  { close := 100, RSI := some 20, MACD := some 1, MACD_Signal := some 0,
    SMA_Short := none, SMA_Long := none }

/-- Sample bar with every indicator undefined: each strategy holds. -/
def rowH : Row :=
  { close := 100, RSI := none, MACD := none, MACD_Signal := none,
    SMA_Short := none, SMA_Long := none }

end Backtester

namespace TechnicalIndicators

/-- `Close.diff()` at index `i`: undefined (NaN) at index 0, else the
difference of consecutive closes. -/
def diffAt (closes : List ℚ) : ℕ → Option ℚ
  | 0 => none
  | n + 1 =>
      match closes.get? (n + 1), closes.get? n with
      | some a, some b => some (a - b)
      | _, _ => none

/-- `delta.where(delta > 0, 0)` at index `i`: the positive part of the
delta, with the NaN at index 0 replaced by 0 (a NaN comparison is false,
so `where` substitutes the alternative there). -/
def gainAt (closes : List ℚ) (i : ℕ) : ℚ :=
  match diffAt closes i with
  | some d => if 0 < d then d else 0
  | none => 0

/-- `(-delta.where(delta < 0, 0))` at index `i`: the magnitude of the
negative part of the delta, with the NaN at index 0 replaced by 0. -/
def lossAt (closes : List ℚ) (i : ℕ) : ℚ :=
  match diffAt closes i with
  | some d => if d < 0 then -d else 0
  | none => 0

/-- Sum of a per-index quantity over the trailing window of length
`period` ending at index `i`. -/
def windowSum (f : ℕ → ℚ) (period i : ℕ) : ℚ :=
  ((List.range period).map fun j => f (i + 1 - period + j)).sum

/-- `gain.rolling(window=period).mean()` at index `i`: defined once the
window fits inside the series (the gain column itself has no NaN). -/
def avgGain (closes : List ℚ) (period i : ℕ) : Option ℚ :=
  if period ≤ i + 1 ∧ i < closes.length then
    some (windowSum (gainAt closes) period i / (period : ℚ))
  else none

/-- `loss.rolling(window=period).mean()` at index `i`. -/
def avgLoss (closes : List ℚ) (period i : ℕ) : Option ℚ :=
  if period ≤ i + 1 ∧ i < closes.length then
    some (windowSum (lossAt closes) period i / (period : ℚ))
  else none

/-- `rsi = 100 - 100/(1 + gain/loss)` at index `i`, with the IEEE float
semantics of the source made explicit: when the average loss is 0 the
quotient is +inf (so RSI evaluates to 100) unless the average gain is
also 0, in which case 0/0 is NaN and the NaN propagates, leaving RSI
undefined at that index. -/
def rsiAt (closes : List ℚ) (period i : ℕ) : Option ℚ :=
  match avgGain closes period i, avgLoss closes period i with
  | some g, some l =>
      if l = 0 then
        if g = 0 then none
        else some 100
      else some (100 - 100 / (1 + g / l))
  | _, _ => none

/-- A flat price series: fifteen bars all closing at 100. -/
def flatCloses : List ℚ := List.replicate 15 100

end TechnicalIndicators

open Backtester TechnicalIndicators

/- Helper lemmas shared by the claim theorems. -/

theorem optLt_none_left (b : Option ℚ) : optLt none b = false := by
  cases b <;> rfl

theorem optLt_none_right (a : Option ℚ) : optLt a none = false := by
  cases a <;> rfl

theorem optGt_none_left (b : Option ℚ) : optGt none b = false := by
  cases b <;> rfl

theorem optGt_none_right (a : Option ℚ) : optGt a none = false := by
  cases a <;> rfl

theorem buyCond_rsi_macd (r : Row) : buyCond "rsi_macd" r = buyRsiMacd r := by
  unfold buyCond
  rw [if_pos rfl]

theorem sellCond_rsi_macd (r : Row) : sellCond "rsi_macd" r = sellRsiMacd r := by
  unfold sellCond
  rw [if_pos rfl]

theorem buyCond_ma_crossover (r : Row) : buyCond "ma_crossover" r = buyMaCrossover r := by
  unfold buyCond
  rw [if_neg (by decide), if_pos rfl]

theorem sellCond_ma_crossover (r : Row) : sellCond "ma_crossover" r = sellMaCrossover r := by
  unfold sellCond
  rw [if_neg (by decide), if_pos rfl]

theorem buyCond_combined (r : Row) : buyCond "combined" r = buyCombined r := by
  unfold buyCond
  rw [if_neg (by decide), if_neg (by decide), if_pos rfl]

theorem sellCond_combined (r : Row) : sellCond "combined" r = sellCombined r := by
  unfold sellCond
  rw [if_neg (by decide), if_neg (by decide), if_pos rfl]

theorem buyCond_unknown (st : String) (r : Row) (h1 : st ≠ "rsi_macd")
    (h2 : st ≠ "ma_crossover") (h3 : st ≠ "combined") : buyCond st r = false := by
  unfold buyCond
  rw [if_neg h1, if_neg h2, if_neg h3]

theorem sellCond_unknown (st : String) (r : Row) (h1 : st ≠ "rsi_macd")
    (h2 : st ≠ "ma_crossover") (h3 : st ≠ "combined") : sellCond st r = false := by
  unfold sellCond
  rw [if_neg h1, if_neg h2, if_neg h3]

theorem generate_signal_unknown (st : String) (r : Row) (h1 : st ≠ "rsi_macd")
    (h2 : st ≠ "ma_crossover") (h3 : st ≠ "combined") : generate_signal st r = 0 := by
  unfold generate_signal
  rw [sellCond_unknown st r h1 h2 h3, buyCond_unknown st r h1 h2 h3]
  rfl

theorem tradeStep_cases (c : ℚ) (st : String) (i : ℕ) (r : Row) (s : SimState) :
    tradeStep c st i r s = s ∨
    (generate_signal st r = 1 ∧ s.position = 0 ∧ 0 < pyInt (s.capital / r.close) ∧
      (pyInt (s.capital / r.close) : ℚ) * r.close * (1 + c) ≤ s.capital ∧
      tradeStep c st i r s =
        { s with
          capital := s.capital - (pyInt (s.capital / r.close) : ℚ) * r.close * (1 + c)
          position := pyInt (s.capital / r.close)
          entry_price := r.close
          trades := s.trades ++
            [{ idx := i, side := Side.BUY, price := r.close,
               shares := pyInt (s.capital / r.close),
               commission := (pyInt (s.capital / r.close) : ℚ) * r.close * c,
               profit := none, profit_pct := none }] }) ∨
    (generate_signal st r = -1 ∧ 0 < s.position ∧
      tradeStep c st i r s =
        { s with
          capital := s.capital + (s.position : ℚ) * r.close * (1 - c)
          position := 0
          entry_price := 0
          trades := s.trades ++
            [{ idx := i, side := Side.SELL, price := r.close, shares := s.position,
               commission := (s.position : ℚ) * r.close * c,
               profit := some ((r.close - s.entry_price) * (s.position : ℚ)),
               profit_pct := some ((r.close - s.entry_price) / s.entry_price * 100) }] }) := by
  unfold tradeStep
  split_ifs with h1 h2 h3 h4
  · exact Or.inr (Or.inl ⟨h1.1, h1.2, h2, h3, rfl⟩)
  · exact Or.inl rfl
  · exact Or.inl rfl
  · exact Or.inr (Or.inr ⟨h4.1, h4.2, rfl⟩)
  · exact Or.inl rfl

theorem tradeStep_portfolio_value (c : ℚ) (st : String) (i : ℕ) (r : Row) (s : SimState) :
    (tradeStep c st i r s).portfolio_value = s.portfolio_value := by
  unfold tradeStep
  split_ifs <;> rfl

theorem stepBar_portfolio_value (c : ℚ) (st : String) (i : ℕ) (r : Row) (s : SimState) :
    (stepBar c st i r s).portfolio_value =
      s.portfolio_value ++ [{ idx := i, value := s.capital + (s.position : ℚ) * r.close }] := by
  unfold stepBar
  rw [tradeStep_portfolio_value]

theorem tradeStep_signal_zero (c : ℚ) (st : String) (i : ℕ) (r : Row) (s : SimState)
    (h0 : generate_signal st r = 0) : tradeStep c st i r s = s := by
  have h1 : ¬(generate_signal st r = 1 ∧ s.position = 0) := fun hcon => by
    rw [h0] at hcon
    exact absurd hcon.1 (by decide)
  have h2 : ¬(generate_signal st r = -1 ∧ 0 < s.position) := fun hcon => by
    rw [h0] at hcon
    exact absurd hcon.1 (by decide)
  unfold tradeStep
  rw [if_neg h1, if_neg h2]

theorem runBars_append (c : ℚ) (st : String) :
    ∀ (a b : List Row) (i : ℕ) (s : SimState),
      runBars c st (a ++ b) i s = runBars c st b (i + a.length) (runBars c st a i s) := by
  intro a
  induction a with
  | nil =>
      intro b i s
      simp [runBars]
  | cons r rest ih =>
      intro b i s
      simp only [List.cons_append, runBars, List.length_cons]
      have h2 : i + (rest.length + 1) = i + 1 + rest.length := by omega
      rw [h2]
      exact ih b (i + 1) _

theorem closeOut_portfolio_value (c : ℚ) (rows : List Row) (s : SimState) :
    (closeOut c rows s).portfolio_value = s.portfolio_value := by
  unfold closeOut
  split_ifs with h
  · cases hL : rows.getLast? <;> rfl
  · rfl

theorem stateAt_succ (c : ℚ) (st : String) (cap : ℚ) (rows : List Row) (n : ℕ)
    (h : n < rows.length) :
    stateAt c st cap rows (n + 1) =
      stepBar c st n (rows.get ⟨n, h⟩) (stateAt c st cap rows n) := by
  unfold stateAt
  rw [List.take_succ]
  have hg : rows[n]? = some (rows.get ⟨n, h⟩) := by simp
  rw [hg, runBars_append]
  have hl : (rows.take n).length = n := by
    simp [List.length_take]
    omega
  rw [hl]
  simp [runBars]

theorem stateAt_pv_length (c : ℚ) (st : String) (cap : ℚ) (rows : List Row) :
    ∀ n, n ≤ rows.length → ((stateAt c st cap rows n).portfolio_value).length = n := by
  intro n
  induction n with
  | zero =>
      intro _
      rfl
  | succ k ih =>
      intro hk
      rw [stateAt_succ c st cap rows k (by omega), stepBar_portfolio_value,
        List.length_append, ih (by omega)]
      rfl

theorem stateAt_pv_get (c : ℚ) (st : String) (cap : ℚ) (rows : List Row) :
    ∀ n, ∀ hn : n ≤ rows.length, ∀ m, ∀ hm : m < n,
      ((stateAt c st cap rows n).portfolio_value)[m]? =
        some { idx := m,
               value := (stateAt c st cap rows m).capital +
                 ((stateAt c st cap rows m).position : ℚ) *
                   (rows.get ⟨m, hm.trans_le hn⟩).close } := by
  intro n
  induction n with
  | zero =>
      intro _ m hm
      exact absurd hm (Nat.not_lt_zero m)
  | succ k ih =>
      intro hn m hm
      have hk : k < rows.length := by omega
      rw [stateAt_succ c st cap rows k hk, stepBar_portfolio_value]
      rcases Nat.lt_or_ge m k with hmk | hmk
      · rw [List.getElem?_append_left (by rw [stateAt_pv_length c st cap rows k (by omega)]; exact hmk)]
        exact ih (by omega) m hmk
      · have hmk2 : m = k := by omega
        subst hmk2
        have hlen : ((stateAt c st cap rows m).portfolio_value).length = m :=
          stateAt_pv_length c st cap rows m (by omega)
        rw [List.getElem?_append_right hlen.le]
        simp [hlen]

theorem tradeStep_nonneg (c : ℚ) (st : String) (i : ℕ) (r : Row) (s : SimState)
    (hc1 : c ≤ 1) (hr : 0 ≤ r.close) (h : 0 ≤ s.capital ∧ 0 ≤ s.position) :
    0 ≤ (tradeStep c st i r s).capital ∧ 0 ≤ (tradeStep c st i r s).position := by
  rcases tradeStep_cases c st i r s with heq | ⟨_, _, hsh, hcost, heq⟩ | ⟨_, hpos, heq⟩
  · rw [heq]
    exact h
  · rw [heq]
    exact ⟨sub_nonneg.2 hcost, le_of_lt hsh⟩
  · rw [heq]
    refine ⟨?_, le_refl 0⟩
    have hposQ : (0 : ℚ) ≤ (s.position : ℚ) := by exact_mod_cast le_of_lt hpos
    have hprod : 0 ≤ (s.position : ℚ) * r.close * (1 - c) :=
      mul_nonneg (mul_nonneg hposQ hr) (by linarith)
    have := h.1
    dsimp only
    linarith

theorem stepBar_nonneg (c : ℚ) (st : String) (i : ℕ) (r : Row) (s : SimState)
    (hc1 : c ≤ 1) (hr : 0 ≤ r.close) (h : 0 ≤ s.capital ∧ 0 ≤ s.position) :
    0 ≤ (stepBar c st i r s).capital ∧ 0 ≤ (stepBar c st i r s).position := by
  unfold stepBar
  exact tradeStep_nonneg c st i r _ hc1 hr h

theorem runBars_nonneg (c : ℚ) (st : String) (hc1 : c ≤ 1) :
    ∀ (rows : List Row) (i : ℕ) (s : SimState),
      (∀ r ∈ rows, 0 ≤ r.close) → 0 ≤ s.capital ∧ 0 ≤ s.position →
        0 ≤ (runBars c st rows i s).capital ∧ 0 ≤ (runBars c st rows i s).position := by
  intro rows
  induction rows with
  | nil =>
      intro i s _ h
      exact h
  | cons r rest ih =>
      intro i s hmem h
      simp only [runBars]
      exact ih (i + 1) _ (fun x hx => hmem x (List.mem_cons_of_mem r hx))
        (stepBar_nonneg c st i r s hc1 (hmem r (List.mem_cons_self r rest)) h)

theorem closeOut_nonneg (c : ℚ) (rows : List Row) (s : SimState)
    (hc1 : c ≤ 1) (hclose : ∀ r ∈ rows, 0 ≤ r.close)
    (h : 0 ≤ s.capital ∧ 0 ≤ s.position) : 0 ≤ (closeOut c rows s).capital := by
  unfold closeOut
  split_ifs with hpos
  · cases hL : rows.getLast? with
    | none => exact h.1
    | some lr =>
        dsimp only
        have hlr : lr ∈ rows := by
          obtain ⟨hne, hEq⟩ := List.mem_getLast?_eq_getLast (show lr ∈ rows.getLast? from hL)
          rw [hEq]
          exact List.getLast_mem hne
        have hposQ : (0 : ℚ) ≤ (s.position : ℚ) := by exact_mod_cast le_of_lt hpos
        have hprod : 0 ≤ (s.position : ℚ) * lr.close * (1 - c) :=
          mul_nonneg (mul_nonneg hposQ (hclose lr hlr)) (by linarith)
        have := h.1
        linarith
  · exact h.1

theorem tradeStep_trades_profit (c : ℚ) (st : String) (i : ℕ) (r : Row) (s : SimState)
    (h : s.trades = [] ∨ 0 < s.position ∨ ∃ t ∈ s.trades, t.profit.isSome = true) :
    (tradeStep c st i r s).trades = [] ∨ 0 < (tradeStep c st i r s).position ∨
      ∃ t ∈ (tradeStep c st i r s).trades, t.profit.isSome = true := by
  rcases tradeStep_cases c st i r s with heq | ⟨_, _, hsh, _, heq⟩ | ⟨_, _, heq⟩
  · rw [heq]
    exact h
  · rw [heq]
    exact Or.inr (Or.inl hsh)
  · rw [heq]
    refine Or.inr (Or.inr ⟨_, List.mem_append_right _ (List.mem_cons_self _ _), rfl⟩)

theorem stepBar_trades_profit (c : ℚ) (st : String) (i : ℕ) (r : Row) (s : SimState)
    (h : s.trades = [] ∨ 0 < s.position ∨ ∃ t ∈ s.trades, t.profit.isSome = true) :
    (stepBar c st i r s).trades = [] ∨ 0 < (stepBar c st i r s).position ∨
      ∃ t ∈ (stepBar c st i r s).trades, t.profit.isSome = true := by
  unfold stepBar
  exact tradeStep_trades_profit c st i r _ h

theorem runBars_trades_profit (c : ℚ) (st : String) :
    ∀ (rows : List Row) (i : ℕ) (s : SimState),
      (s.trades = [] ∨ 0 < s.position ∨ ∃ t ∈ s.trades, t.profit.isSome = true) →
      ((runBars c st rows i s).trades = [] ∨ 0 < (runBars c st rows i s).position ∨
        ∃ t ∈ (runBars c st rows i s).trades, t.profit.isSome = true) := by
  intro rows
  induction rows with
  | nil =>
      intro i s h
      exact h
  | cons r rest ih =>
      intro i s h
      simp only [runBars]
      exact ih (i + 1) _ (stepBar_trades_profit c st i r s h)

theorem runBars_all_hold (c : ℚ) (st : String)
    (hall : ∀ r : Row, generate_signal st r = 0) :
    ∀ (rows : List Row) (i : ℕ) (s : SimState),
      (runBars c st rows i s).position = s.position ∧
        (runBars c st rows i s).trades = s.trades := by
  intro rows
  induction rows with
  | nil =>
      intro i s
      exact ⟨rfl, rfl⟩
  | cons r rest ih =>
      intro i s
      have hts : stepBar c st i r s =
          { s with
            portfolio_value := s.portfolio_value ++
              [{ idx := i, value := s.capital + (s.position : ℚ) * r.close }] } := by
        unfold stepBar
        rw [tradeStep_signal_zero c st i r _ (hall r)]
      simp only [runBars]
      rw [hts]
      exact ih (i + 1) _

theorem gainAt_nonneg (closes : List ℚ) (k : ℕ) : 0 ≤ gainAt closes k := by
  unfold gainAt
  rcases hd : diffAt closes k with _ | d
  · exact le_refl 0
  · show 0 ≤ if 0 < d then d else 0
    split_ifs with h0
    · exact le_of_lt h0
    · exact le_refl 0

theorem lossAt_nonneg (closes : List ℚ) (k : ℕ) : 0 ≤ lossAt closes k := by
  unfold lossAt
  rcases hd : diffAt closes k with _ | d
  · exact le_refl 0
  · show 0 ≤ if d < 0 then -d else 0
    split_ifs with h0
    · linarith
    · exact le_refl 0

theorem windowSum_gain_nonneg (closes : List ℚ) (period i : ℕ) :
    0 ≤ windowSum (gainAt closes) period i := by
  unfold windowSum
  apply List.sum_nonneg
  intro x hx
  simp only [List.mem_map] at hx
  obtain ⟨j, _, rfl⟩ := hx
  exact gainAt_nonneg closes _

theorem windowSum_loss_nonneg (closes : List ℚ) (period i : ℕ) :
    0 ≤ windowSum (lossAt closes) period i := by
  unfold windowSum
  apply List.sum_nonneg
  intro x hx
  simp only [List.mem_map] at hx
  obtain ⟨j, _, rfl⟩ := hx
  exact lossAt_nonneg closes _

theorem avgGain_nonneg (closes : List ℚ) (period i : ℕ) (g : ℚ)
    (hg : avgGain closes period i = some g) : 0 ≤ g := by
  unfold avgGain at hg
  split_ifs at hg with hcond
  · injection hg with hg2
    rw [← hg2]
    exact div_nonneg (windowSum_gain_nonneg closes period i) (Nat.cast_nonneg period)

theorem avgLoss_nonneg (closes : List ℚ) (period i : ℕ) (l : ℚ)
    (hl : avgLoss closes period i = some l) : 0 ≤ l := by
  unfold avgLoss at hl
  split_ifs at hl with hcond
  · injection hl with hl2
    rw [← hl2]
    exact div_nonneg (windowSum_loss_nonneg closes period i) (Nat.cast_nonneg period)

/-- C1: counterexample to the claim as stated.  At a bar whose signal is
BUY while the simulator is FLAT, with `shares = floor(cash / price) = 1`,
the source still records no BUY trade, because of the additional guard
`cost <= capital`: with cash 100, price 100 and commission 0.001 the
commission-inclusive cost 100.1 exceeds the cash, so the run ends with an
empty trade list even though shares >= 1. -/
theorem C1_counterexample :
    generate_signal "rsi_macd" rowR = 1 ∧
    (initState 100).position = 0 ∧
    pyInt ((initState 100).capital / rowR.close) = 1 ∧
    (run_backtest "rsi_macd" (1/1000) 100 [rowR]).trades = [] := by
  norm_num [generate_signal, sellCond, buyCond, sellRsiMacd, buyRsiMacd, optLt, optGt,
    rowR, initState, pyInt, run_backtest, runBars, stepBar, tradeStep, closeOut]

/-- C1 (amended): at a bar where the signal is BUY and the simulator is
FLAT, the BUY executes if and only if `shares = floor(cash/price)` is
positive AND the commission-inclusive cost `shares*price*(1+commission)`
does not exceed cash; when it executes, cash is debited by that cost,
entry_price is set to the price, and a BUY Trade is recorded with
commission_paid = shares*price*commission; otherwise (zero shares, or
cost exceeding cash) the bar is a no-op. -/
theorem C1_buy_guard (c : ℚ) (st : String) (i : ℕ) (r : Row) (s : SimState)
    (hsig : generate_signal st r = 1) (hpos : s.position = 0) :
    (0 < pyInt (s.capital / r.close) →
      (pyInt (s.capital / r.close) : ℚ) * r.close * (1 + c) ≤ s.capital →
      tradeStep c st i r s =
        { s with
          capital := s.capital - (pyInt (s.capital / r.close) : ℚ) * r.close * (1 + c)
          position := pyInt (s.capital / r.close)
          entry_price := r.close
          trades := s.trades ++
            [{ idx := i, side := Side.BUY, price := r.close,
               shares := pyInt (s.capital / r.close),
               commission := (pyInt (s.capital / r.close) : ℚ) * r.close * c,
               profit := none, profit_pct := none }] }) ∧
    ((¬ 0 < pyInt (s.capital / r.close) ∨
        s.capital < (pyInt (s.capital / r.close) : ℚ) * r.close * (1 + c)) →
      tradeStep c st i r s = s) := by
  unfold tradeStep
  rw [if_pos ⟨hsig, hpos⟩]
  constructor
  · intro h1 h2
    rw [if_pos h1, if_pos h2]
  · intro h
    by_cases hsh : 0 < pyInt (s.capital / r.close)
    · rw [if_pos hsh]
      rcases h with h | h
      · exact absurd hsh h
      · rw [if_neg (not_le.2 h)]
    · rw [if_neg hsh]

/-- C1 witness: with cash 209, price 10 and commission 0.001, shares = 20
and cost 200.2 <= 209, so the BUY executes exactly as described. -/
theorem C1_buy_guard_witness :
    tradeStep (1/1000) "ma_crossover" 0 rowM (initState 209) =
      { capital := 44/5
        position := 20
        entry_price := 10
        trades := [{ idx := 0, side := Side.BUY, price := 10, shares := 20,
                     commission := 1/5, profit := none, profit_pct := none }]
        portfolio_value := [] } := by
  have h := (C1_buy_guard (1/1000) "ma_crossover" 0 rowM (initState 209)
    (by norm_num [generate_signal, sellCond_ma_crossover, buyCond_ma_crossover,
      sellMaCrossover, buyMaCrossover, optLt, optGt, rowM])
    rfl).1
    (by norm_num [pyInt, initState, rowM])
    (by norm_num [pyInt, initState, rowM])
  rw [h]
  norm_num [initState, rowM, pyInt]

/-- C2: every run appends exactly one EquityPoint per bar (the equity
curve has the length of the series), and the point recorded at bar m is
valued at cash + shares_held * close of that bar, taken from the
simulator state at the moment of recording (after the first m bars,
before any trade of bar m), whether or not a trade occurs at that bar. -/
theorem C2_equity_curve (st : String) (c cap : ℚ) (rows : List Row) :
    (run_backtest st c cap rows).portfolio_value.length = rows.length ∧
    ∀ m, ∀ hm : m < rows.length,
      (run_backtest st c cap rows).portfolio_value[m]? =
        some { idx := m,
               value := (stateAt c st cap rows m).capital +
                 ((stateAt c st cap rows m).position : ℚ) * (rows.get ⟨m, hm⟩).close } := by
  have hpv : (run_backtest st c cap rows).portfolio_value =
      (stateAt c st cap rows rows.length).portfolio_value := by
    unfold run_backtest stateAt
    rw [closeOut_portfolio_value, List.take_length]
  constructor
  · rw [hpv]
    exact stateAt_pv_length c st cap rows rows.length (le_refl _)
  · intro m hm
    rw [hpv]
    exact stateAt_pv_get c st cap rows rows.length (le_refl _) m hm

/-- C2 witness: a one-bar all-HOLD run records exactly the point
⟨0, 100 + 0*100⟩. -/
theorem C2_equity_curve_witness :
    (run_backtest "rsi_macd" (1/1000) 100 [rowH]).portfolio_value[0]? =
      some { idx := 0,
             value := (stateAt (1/1000) "rsi_macd" 100 [rowH] 0).capital +
               ((stateAt (1/1000) "rsi_macd" 100 [rowH] 0).position : ℚ) *
                 (([rowH] : List Row).get ⟨0, Nat.zero_lt_one⟩).close } :=
  (C2_equity_curve "rsi_macd" (1/1000) 100 [rowH]).2 0 Nat.zero_lt_one

/-- C3: if a position is still open after the final bar of a non-empty
series is processed, the run records one extra SELL at the final close
with exactly the fields of a signal-driven SELL (price, all held shares,
commission = shares*price*commission, profit = (price-entry_price)*shares,
profit_pct = (price-entry_price)/entry_price*100) and credits
shares*price*(1-commission) to cash, so the whole holding is closed out
and nothing else changes. -/
theorem C3_forced_close (st : String) (c cap : ℚ) (rows : List Row) (s : SimState)
    (hrows : rows ≠ [])
    (hs : runBars c st rows 0 (initState cap) = s)
    (hpos : 0 < s.position) :
    run_backtest st c cap rows =
      { s with
        capital := s.capital + (s.position : ℚ) * (rows.getLast hrows).close * (1 - c)
        trades := s.trades ++
          [{ idx := rows.length - 1
             side := Side.SELL
             price := (rows.getLast hrows).close
             shares := s.position
             commission := (s.position : ℚ) * (rows.getLast hrows).close * c
             profit := some (((rows.getLast hrows).close - s.entry_price) * (s.position : ℚ))
             profit_pct :=
               some (((rows.getLast hrows).close - s.entry_price) / s.entry_price * 100) }] } := by
  unfold run_backtest
  rw [hs]
  unfold closeOut
  rw [if_pos hpos, List.getLast?_eq_getLast_of_ne_nil hrows]

/-- C3 witness: one ma_crossover bar buys 20 shares at 10, and the forced
close-out sells all 20 at the final close 10, crediting 199.8. -/
theorem C3_forced_close_witness :
    run_backtest "ma_crossover" (1/1000) 209 [rowM] =
      { capital := 1043/5
        position := 20
        entry_price := 10
        trades := [{ idx := 0, side := Side.BUY, price := 10, shares := 20,
                     commission := 1/5, profit := none, profit_pct := none },
                   { idx := 0, side := Side.SELL, price := 10, shares := 20,
                     commission := 1/5, profit := some 0, profit_pct := some 0 }]
        portfolio_value := [{ idx := 0, value := 209 }] } := by
  have h := C3_forced_close "ma_crossover" (1/1000) 209 [rowM]
    { capital := 44/5
      position := 20
      entry_price := 10
      trades := [{ idx := 0, side := Side.BUY, price := 10, shares := 20,
                   commission := 1/5, profit := none, profit_pct := none }]
      portfolio_value := [{ idx := 0, value := 209 }] }
    (by simp)
    (by norm_num [runBars, stepBar, tradeStep, generate_signal, sellCond_ma_crossover,
      buyCond_ma_crossover, sellMaCrossover, buyMaCrossover, optLt, optGt, rowM,
      initState, pyInt])
    (by norm_num)
  rw [h]
  norm_num [rowM]

/-- C4: for each of the three recognised strategies, a bar at which any
indicator that strategy reads is undefined (NaN) gets signal 0 (HOLD), so
no trade is triggered on incomplete data: every comparison involving a
NaN is false, leaving both the buy and the sell mask unset. -/
theorem C4_undefined_indicator_hold (st : String) (r : Row)
    (hst : st ∈ strategyNames) (hmiss : missingRequired st r = true) :
    generate_signal st r = 0 := by
  have hst3 : st = "rsi_macd" ∨ st = "ma_crossover" ∨ st = "combined" := by
    simpa [strategyNames] using hst
  rcases hst3 with h | h | h <;> subst h
  · have hm : (r.RSI.isNone || (r.MACD.isNone || r.MACD_Signal.isNone)) = true := by
      unfold missingRequired at hmiss
      rw [if_pos rfl] at hmiss
      simpa [Bool.or_assoc] using hmiss
    simp only [Bool.or_eq_true, Option.isNone_iff_eq_none] at hm
    unfold generate_signal
    rw [sellCond_rsi_macd, buyCond_rsi_macd]
    rcases hm with h | h | h <;>
      simp [buyRsiMacd, sellRsiMacd, h, optLt_none_left, optLt_none_right,
        optGt_none_left, optGt_none_right]
  · have hm : (r.SMA_Short.isNone || r.SMA_Long.isNone) = true := by
      unfold missingRequired at hmiss
      rw [if_neg (by decide), if_pos rfl] at hmiss
      exact hmiss
    simp only [Bool.or_eq_true, Option.isNone_iff_eq_none] at hm
    unfold generate_signal
    rw [sellCond_ma_crossover, buyCond_ma_crossover]
    rcases hm with h | h <;>
      simp [buyMaCrossover, sellMaCrossover, h, optLt_none_left, optLt_none_right,
        optGt_none_left, optGt_none_right]
  · have hm : (r.RSI.isNone || (r.MACD.isNone || (r.MACD_Signal.isNone ||
        (r.SMA_Short.isNone || r.SMA_Long.isNone)))) = true := by
      unfold missingRequired at hmiss
      rw [if_neg (by decide), if_neg (by decide), if_pos rfl] at hmiss
      simpa [Bool.or_assoc] using hmiss
    simp only [Bool.or_eq_true, Option.isNone_iff_eq_none] at hm
    unfold generate_signal
    rw [sellCond_combined, buyCond_combined]
    rcases hm with h | h | h | h | h <;>
      simp [buyCombined, sellCombined, h, optLt_none_left, optLt_none_right,
        optGt_none_left, optGt_none_right]

/-- C4 witness: under rsi_macd, a bar with RSI (and the rest) undefined
holds. -/
theorem C4_undefined_indicator_hold_witness : generate_signal "rsi_macd" rowH = 0 :=
  C4_undefined_indicator_hold "rsi_macd" rowH (by decide) (by decide)

/-- C5: counterexample to the claim as stated.  Requesting a backtest
with the unknown strategy name "bollinger" does not fail: no branch of
`generate_signals` matches, so every bar keeps signal 0 (the silent
all-HOLD default), the run completes with an empty trade list, and a
normal report is produced. -/
theorem C5_counterexample :
    generate_signal "bollinger" rowR = 0 ∧
    (run_backtest "bollinger" (1/1000) 100 [rowR]).trades = [] ∧
    backtestReport "bollinger" (1/1000) 100 [rowR] =
      { initial_capital := 100, final_value := 100, total_return := 0,
        total_return_pct := 0, total_trades := 0, buy_trades := 0,
        sell_trades := 0, win_rate := 0 } := by
  have hall : ∀ r : Row, generate_signal "bollinger" r = 0 := fun r =>
    generate_signal_unknown "bollinger" r (by decide) (by decide) (by decide)
  refine ⟨hall rowR, ?_, ?_⟩ <;>
    norm_num [hall, backtestReport, calculate_metrics, profitFieldCount, profitableCount,
      run_backtest, runBars, stepBar, tradeStep, closeOut, rowR, initState, pyInt]

/-- C5 (amended): requesting a backtest with a strategy name other than
the three recognised ones does not raise any error: the signal column
stays 0 (HOLD) on every bar, so the run silently completes with no
trades at all. -/
theorem C5_unknown_strategy_all_hold (st : String) (hst : st ∉ strategyNames)
    (c cap : ℚ) (rows : List Row) :
    (∀ r : Row, generate_signal st r = 0) ∧
    (run_backtest st c cap rows).trades = [] := by
  have hne : st ≠ "rsi_macd" ∧ st ≠ "ma_crossover" ∧ st ≠ "combined" := by
    simpa [strategyNames, not_or] using hst
  have hall : ∀ r : Row, generate_signal st r = 0 := fun r =>
    generate_signal_unknown st r hne.1 hne.2.1 hne.2.2
  refine ⟨hall, ?_⟩
  unfold run_backtest
  have hrb := runBars_all_hold c st hall rows 0 (initState cap)
  have hp : ¬ 0 < (runBars c st rows 0 (initState cap)).position := by
    rw [hrb.1]
    simp [initState]
  unfold closeOut
  rw [if_neg hp]
  exact hrb.2

/-- C5 witness: the unknown name "momentum" yields HOLD on a bar whose
ma_crossover signal would be BUY, and a run under it records no trades. -/
theorem C5_unknown_strategy_all_hold_witness :
    generate_signal "momentum" rowM = 0 ∧
    (run_backtest "momentum" (1/1000) 209 [rowM]).trades = [] :=
  ⟨(C5_unknown_strategy_all_hold "momentum" (by decide) (1/1000) 209 [rowM]).1 rowM,
   (C5_unknown_strategy_all_hold "momentum" (by decide) (1/1000) 209 [rowM]).2⟩

/-- C6: counterexample to the claim as stated.  Running a backtest on an
empty series is not a terminal input error in the source: the loop body
never runs, the close-out guard fails, and a full report is produced with
final_value equal to the initial capital. -/
theorem C6_counterexample :
    run_backtest "rsi_macd" (1/1000) 10000 [] = initState 10000 ∧
    backtestReport "rsi_macd" (1/1000) 10000 [] =
      { initial_capital := 10000, final_value := 10000, total_return := 0,
        total_return_pct := 0, total_trades := 0, buy_trades := 0,
        sell_trades := 0, win_rate := 0 } := by
  constructor <;>
    norm_num [backtestReport, calculate_metrics, profitFieldCount, profitableCount,
      run_backtest, runBars, closeOut, initState]

/-- C6 (amended): for every strategy name, commission and capital, a run
on the empty series does not fail; it leaves the simulator in its initial
state (no trades, empty equity curve) and produces a report whose
final_value is the initial capital, with zero return and zero counts. -/
theorem C6_empty_series_report (st : String) (c cap : ℚ) :
    run_backtest st c cap [] = initState cap ∧
    backtestReport st c cap [] =
      { initial_capital := cap, final_value := cap, total_return := 0,
        total_return_pct := 0, total_trades := 0, buy_trades := 0,
        sell_trades := 0, win_rate := 0 } := by
  have h1 : run_backtest st c cap [] = initState cap := by
    unfold run_backtest runBars closeOut
    norm_num [initState]
  refine ⟨h1, ?_⟩
  unfold backtestReport
  rw [h1]
  unfold calculate_metrics initState
  norm_num

/-- C7: counterexample to the claim as stated.  On a flat series (15 bars
closing at 100) with period 14, bar 14 has trailing average loss 0, yet
the computed RSI is undefined there, not 100: the trailing average gain
is also 0, `rs = 0/0` is NaN, and the NaN propagates (there is no
explicit division-by-zero branch in the source). -/
theorem C7_counterexample :
    14 ≤ 14 ∧ avgLoss flatCloses 14 14 = some 0 ∧ rsiAt flatCloses 14 14 = none := by
  refine ⟨le_refl 14, ?_, ?_⟩ <;>
    norm_num [rsiAt, avgGain, avgLoss, flatCloses, windowSum, gainAt, lossAt,
      diffAt, List.range_succ]

/-- C7 (amended): at a bar where the trailing average loss is 0, the
computed RSI is 100 whenever the trailing average gain is non-zero
(`gain/0 = +inf`, so `100 - 100/(1+inf) = 100`), but when the average
gain is also 0 the RSI is undefined (`0/0` is NaN and propagates). -/
theorem C7_avg_loss_zero_rsi (closes : List ℚ) (period i : ℕ) (g : ℚ)
    (hg : avgGain closes period i = some g)
    (hl : avgLoss closes period i = some 0) :
    rsiAt closes period i = if g = 0 then none else some 100 := by
  unfold rsiAt
  rw [hg, hl]
  simp

/-- C7 witness: closes 100, 101, 103 with period 2 at bar 2 have average
loss 0 and average gain 3/2, and the RSI evaluates to 100. -/
theorem C7_avg_loss_zero_rsi_witness : rsiAt [100, 101, 103] 2 2 = some 100 := by
  have h := C7_avg_loss_zero_rsi [100, 101, 103] 2 2 (3/2)
    (by norm_num [avgGain, windowSum, gainAt, diffAt, List.range_succ])
    (by norm_num [avgLoss, windowSum, lossAt, diffAt, List.range_succ])
  rw [h]
  norm_num

/-- C8: wherever the computed RSI is defined, its value lies in [0, 100]:
the trailing average gain and loss are averages of non-negative
quantities, so rs = gain/loss >= 0 and 100 - 100/(1+rs) lies in [0, 100),
and the avg_loss = 0 edge case yields exactly 100. -/
theorem C8_rsi_range (closes : List ℚ) (period i : ℕ) (v : ℚ)
    (h : rsiAt closes period i = some v) : 0 ≤ v ∧ v ≤ 100 := by
  unfold rsiAt at h
  cases hg : avgGain closes period i with
  | none =>
      rw [hg] at h
      simp at h
  | some g =>
      cases hl : avgLoss closes period i with
      | none =>
          rw [hg, hl] at h
          simp at h
      | some l =>
          rw [hg, hl] at h
          dsimp only at h
          have hgnn : 0 ≤ g := avgGain_nonneg closes period i g hg
          have hlnn : 0 ≤ l := avgLoss_nonneg closes period i l hl
          by_cases hl0 : l = 0
          · rw [if_pos hl0] at h
            by_cases hg0 : g = 0
            · rw [if_pos hg0] at h
              exact Option.noConfusion h
            · rw [if_neg hg0] at h
              injection h with hv
              rw [← hv]
              norm_num
          · rw [if_neg hl0] at h
            injection h with hv
            have hlpos : 0 < l := lt_of_le_of_ne hlnn (Ne.symm hl0)
            have hrs : 0 ≤ g / l := div_nonneg hgnn (le_of_lt hlpos)
            have h1 : (0 : ℚ) < 1 + g / l := by linarith
            constructor
            · rw [← hv]
              have hle : 100 / (1 + g / l) ≤ 100 := div_le_self (by norm_num) (by linarith)
              linarith
            · rw [← hv]
              have hge : 0 ≤ 100 / (1 + g / l) := div_nonneg (by norm_num) (le_of_lt h1)
              linarith

/-- C8 witness: the defined RSI value 100 at bar 2 of closes 100, 101,
103 (period 2) lies within the bounds. -/
theorem C8_rsi_range_witness : 0 ≤ (100 : ℚ) ∧ (100 : ℚ) ≤ 100 :=
  C8_rsi_range [100, 101, 103] 2 2 100
    (by norm_num [rsiAt, avgGain, avgLoss, windowSum, gainAt, lossAt, diffAt,
      List.range_succ])

/-- C9: throughout a run started with positive initial capital (with the
data-model side conditions: commission a fraction at most 1 and positive
close prices), cash never goes negative: it is non-negative after each of
the first n bars for every n (so after every BUY debit and SELL credit)
and still non-negative after the final forced close-out.  The BUY branch
preserves this through its explicit `cost <= capital` guard; SELL credits
are non-negative. -/
theorem C9_cash_nonnegative (st : String) (c cap : ℚ) (rows : List Row)
    (hcap : 0 < cap) (_hc0 : 0 ≤ c) (hc1 : c ≤ 1)
    (hclose : ∀ r ∈ rows, 0 < r.close) :
    (∀ n : ℕ, 0 ≤ (stateAt c st cap rows n).capital) ∧
    0 ≤ (run_backtest st c cap rows).capital := by
  have hinit : 0 ≤ (initState cap).capital ∧ 0 ≤ (initState cap).position :=
    ⟨le_of_lt hcap, le_refl 0⟩
  constructor
  · intro n
    exact (runBars_nonneg c st hc1 (rows.take n) 0 (initState cap)
      (fun r hr => le_of_lt (hclose r (List.take_subset n rows hr))) hinit).1
  · unfold run_backtest
    exact closeOut_nonneg c rows _ hc1 (fun r hr => le_of_lt (hclose r hr))
      (runBars_nonneg c st hc1 rows 0 (initState cap)
        (fun r hr => le_of_lt (hclose r hr)) hinit)

/-- C9 witness: the buy-then-forced-sell run on one ma_crossover bar ends
with non-negative cash. -/
theorem C9_cash_nonnegative_witness :
    0 ≤ (run_backtest "ma_crossover" (1/1000) 209 [rowM]).capital :=
  (C9_cash_nonnegative "ma_crossover" (1/1000) 209 [rowM]
    (by norm_num) (by norm_num) (by norm_num)
    (by intro r hr; rw [List.mem_singleton] at hr; rw [hr]; norm_num [rowM])).2

/-- C10: whenever a completed run has recorded any trade at all, at least
one recorded trade is a SELL carrying a profit field: a non-empty trade
list implies some BUY opened a position, positions are only closed by
SELL records (which always carry profit), and a position still open after
the loop is closed by the forced close-out SELL.  Hence the win_rate
denominator `len([t for t in trades if 'profit' in t])` is positive
whenever the non-empty-trades guard of calculate_metrics passes. -/
theorem C10_profit_trade_exists (st : String) (c cap : ℚ) (rows : List Row)
    (h : (run_backtest st c cap rows).trades ≠ []) :
    0 < profitFieldCount (run_backtest st c cap rows).trades := by
  have hJ := runBars_trades_profit c st rows 0 (initState cap) (Or.inl rfl)
  have hex : ∃ t ∈ (run_backtest st c cap rows).trades, t.profit.isSome = true := by
    by_cases hpos : 0 < (runBars c st rows 0 (initState cap)).position
    · unfold run_backtest closeOut
      rw [if_pos hpos]
      cases hL : rows.getLast? with
      | none =>
          rw [List.getLast?_eq_none_iff] at hL
          subst hL
          simp only [runBars, initState] at hpos
          exact absurd hpos (lt_irrefl 0)
      | some lr =>
          dsimp only
          exact ⟨_, List.mem_append_right _ (List.mem_cons_self _ _), rfl⟩
    · have hrun : run_backtest st c cap rows = runBars c st rows 0 (initState cap) := by
        unfold run_backtest closeOut
        rw [if_neg hpos]
      rcases hJ with htr | hp | hex2
      · rw [hrun] at h
        exact absurd htr h
      · exact absurd hp hpos
      · rw [hrun]
        exact hex2
  obtain ⟨t, htmem, htp⟩ := hex
  unfold profitFieldCount
  exact List.length_pos_of_mem (List.mem_filter.2 ⟨htmem, htp⟩)

/-- C10 witness: the one-bar ma_crossover run records a BUY and the
forced close-out SELL, so its profit-field count is positive. -/
theorem C10_profit_trade_exists_witness :
    0 < profitFieldCount (run_backtest "ma_crossover" (1/1000) 209 [rowM]).trades :=
  C10_profit_trade_exists "ma_crossover" (1/1000) 209 [rowM]
    (by
      norm_num [run_backtest, runBars, stepBar, tradeStep, closeOut, generate_signal,
        sellCond_ma_crossover, buyCond_ma_crossover, sellMaCrossover, buyMaCrossover,
        optLt, optGt, rowM, initState, pyInt]
      exact List.cons_ne_nil _ _)
